import Mathlib

/-!
Verification development for the medical knowledge-graph RAG repository
(`disease symptom rag/main.py`, `disease symptom rag/utils.py`).

The Python modules are shallowly embedded: pure string templates become Lean
string constants (split into named sections so that local facts can be proved
on a section and lifted to the concatenation), f-string query builders become
Lean functions on `String`, and the stateful orchestration code becomes
explicit state passing.  Calls into the two external services (the Neo4j
driver and the Azure OpenAI client) and into the third-party chain
constructors are modelled as oracle fields of explicit environment records:
each oracle is an `Except PyError _` value describing the outcome that call
would have had.  Python exceptions are the `PyError` inductive; a function
that may raise returns `Except PyError _`.  Printed output is modelled as a
list of printed strings returned alongside the value.
-/

/-! ## Python string primitives -/

/-- The characters Python's `str.strip()` removes (ASCII whitespace). -/
def pyIsSpace (c : Char) : Bool :=
  c == ' ' || c == '\t' || c == '\n' || c == '\r' || c == '\x0b' || c == '\x0c'

/-- Python `str.strip()`: drop leading and trailing whitespace. -/
def pyStrip (s : String) : String :=
  ⟨((s.data.dropWhile pyIsSpace).reverse.dropWhile pyIsSpace).reverse⟩

/-- Python `str.lower()` / Cypher `toLower(...)` (ASCII case folding). -/
def toLowerStr (s : String) : String :=
  ⟨s.data.map Char.toLower⟩

/-- Whether `needle` occurs contiguously in `hay` (worker on character lists). -/
def containsSubstrAux (needle : List Char) : List Char → Bool
  | [] => needle.isEmpty
  | c :: cs => List.isPrefixOf needle (c :: cs) || containsSubstrAux needle cs

/-- Whether the string `needle` is a contiguous substring of `hay`. -/
def containsSubstr (hay needle : String) : Bool :=
  containsSubstrAux needle.data hay.data

theorem isPrefixOf_append_right {n l : List Char} (r : List Char)
    (h : List.isPrefixOf n l = true) : List.isPrefixOf n (l ++ r) = true := by
  induction n generalizing l with
  | nil => simp [List.isPrefixOf]
  | cons a as ih =>
    cases l with
    | nil => simp [List.isPrefixOf] at h
    | cons b bs =>
      simp only [List.cons_append]
      simp only [List.isPrefixOf, Bool.and_eq_true] at h ⊢
      exact ⟨h.1, ih h.2⟩

theorem containsSubstrAux_nil (l : List Char) : containsSubstrAux [] l = true := by
  induction l with
  | nil => rfl
  | cons c cs ih => simp [containsSubstrAux, List.isPrefixOf]

theorem containsSubstrAux_append_right {n l : List Char} (r : List Char)
    (h : containsSubstrAux n l = true) : containsSubstrAux n (l ++ r) = true := by
  induction l with
  | nil =>
    simp only [containsSubstrAux, List.isEmpty_iff] at h
    subst h
    simpa using containsSubstrAux_nil r
  | cons c cs ih =>
    simp only [containsSubstrAux, Bool.or_eq_true] at h
    rcases h with h | h
    · simp only [List.cons_append, containsSubstrAux, Bool.or_eq_true]
      exact Or.inl (isPrefixOf_append_right r h)
    · simp only [List.cons_append, containsSubstrAux, Bool.or_eq_true]
      exact Or.inr (ih h)

theorem containsSubstrAux_append_left {n r : List Char} (l : List Char)
    (h : containsSubstrAux n r = true) : containsSubstrAux n (l ++ r) = true := by
  induction l with
  | nil => simpa using h
  | cons c cs ih =>
    simp only [List.cons_append, containsSubstrAux, Bool.or_eq_true]
    exact Or.inr ih

/-- Substring monotonicity: extending the haystack on the right. -/
theorem containsSubstr_append_right (pre rest pat : String)
    (h : containsSubstr pre pat = true) : containsSubstr (pre ++ rest) pat = true := by
  simpa [containsSubstr, String.data_append] using
    containsSubstrAux_append_right rest.data h

/-- Substring monotonicity: extending the haystack on the left. -/
theorem containsSubstr_append_left (pre rest pat : String)
    (h : containsSubstr rest pat = true) : containsSubstr (pre ++ rest) pat = true := by
  simpa [containsSubstr, String.data_append] using
    containsSubstrAux_append_left pre.data h

/-! ## `utils.py`: prompt templates

`ADVANCED_CYPHER_TEMPLATE` is one literal in the source; it is written here as
the concatenation of named sections (header, the four worked query patterns,
footer) whose concatenation is character-for-character the source literal. -/

def CYPHER_TEMPLATE_HEADER : String :=
  "You are an expert Neo4j Cypher query generator for a medical knowledge graph.\n\nDATABASE SCHEMA:\n{schema}\n\nMEDICAL KNOWLEDGE GRAPH STRUCTURE:\n- Nodes: Disease, Symptom, Treatment, DiseaseSymptomRelationship, DiseaseTreatmentRelationship\n- Properties: All nodes have \"name\" property containing the text value\n- Key Relationships:\n  * (DiseaseSymptomRelationship)-[:FOR_DISEASE]->(Disease)\n  * (DiseaseSymptomRelationship)-[:FOR_SYMPTOM]->(Symptom)\n  * (DiseaseTreatmentRelationship)-[:FOR_DISEASE]->(Disease)\n  * (DiseaseTreatmentRelationship)-[:FOR_TREATMENT]->(Treatment)\n\nCRITICAL RULES:\n1. Use \"name\" property for all nodes, NOT \"id\" \n2. Use toLower() and CONTAINS for flexible matching\n3. Use collect() to group results\n4. Always add LIMIT for multiple results\n5. Follow the relationship pattern through intermediate nodes\n\nQUERY PATTERNS:\n\n"

def CYPHER_SYMPTOM_PATTERN : String :=
  "For symptoms questions (\"What are symptoms of X\", \"X symptoms\", \"signs of X\"):\nMATCH (dsr:DiseaseSymptomRelationship)-[:FOR_DISEASE]->(d:Disease), \n      (dsr)-[:FOR_SYMPTOM]->(s:Symptom)\nWHERE toLower(d.name) CONTAINS toLower(\"condition_name\")\nRETURN d.name as condition, collect(s.name) as symptoms\nLIMIT 5\n\n"

def CYPHER_TREATMENT_PATTERN : String :=
  "For treatment questions (\"How to treat X\", \"treatment for X\", \"cure for X\"):\nMATCH (dtr:DiseaseTreatmentRelationship)-[:FOR_DISEASE]->(d:Disease), \n      (dtr)-[:FOR_TREATMENT]->(t:Treatment)\nWHERE toLower(d.name) CONTAINS toLower(\"condition_name\")\nRETURN d.name as condition, collect(t.name) as treatments\nLIMIT 5\n\n"

def CYPHER_DIAGNOSTIC_PATTERN : String :=
  "For diagnostic questions (\"What could cause X\", \"diseases with X symptom\", \"conditions with X\"):\nMATCH (dsr:DiseaseSymptomRelationship)-[:FOR_DISEASE]->(d:Disease), \n      (dsr)-[:FOR_SYMPTOM]->(s:Symptom)\nWHERE toLower(s.name) CONTAINS toLower(\"symptom_name\")\nRETURN d.name as condition, count(s) as symptom_matches\nORDER BY symptom_matches DESC\nLIMIT 10\n\n"

def CYPHER_GENERAL_PATTERN : String :=
  "For general condition info (\"Tell me about X\", \"What is X\"):\nMATCH (d:Disease)\nWHERE toLower(d.name) CONTAINS toLower(\"condition_name\")\nOPTIONAL MATCH (dsr:DiseaseSymptomRelationship)-[:FOR_DISEASE]->(d), (dsr)-[:FOR_SYMPTOM]->(s:Symptom)\nOPTIONAL MATCH (dtr:DiseaseTreatmentRelationship)-[:FOR_DISEASE]->(d), (dtr)-[:FOR_TREATMENT]->(t:Treatment)\nRETURN d.name as condition, collect(DISTINCT s.name) as symptoms, collect(DISTINCT t.name) as treatments\nLIMIT 5\n\n"

def CYPHER_TEMPLATE_FOOTER : String :=
  "Question: {question}\n\nGenerate ONLY the Cypher query without any explanation:"

/-- The advanced Cypher generation template of `utils.py`. -/
def ADVANCED_CYPHER_TEMPLATE : String :=
  CYPHER_TEMPLATE_HEADER ++ CYPHER_SYMPTOM_PATTERN ++ CYPHER_TREATMENT_PATTERN ++
    CYPHER_DIAGNOSTIC_PATTERN ++ CYPHER_GENERAL_PATTERN ++ CYPHER_TEMPLATE_FOOTER

/-- The QA prompt template of `utils.py`. -/
def QA_TEMPLATE : String :=
  "You are a helpful medical assistant. Based on the following information from a medical knowledge graph, provide a clear and helpful response to the patient's question.\n\nContext from knowledge graph:\n{context}\n\nQuestion: {question}\n\nPlease provide a response as if you are talking to a patient. Be empathetic, clear, and always remind them to consult with healthcare professionals for proper diagnosis and treatment.\n\nAnswer:"

/-! ## `utils.py`: `MedicalQueryHelper` query builders -/

def SYMPTOMS_QUERY_PRE : String :=
  "\n        MATCH (dsr:DiseaseSymptomRelationship)-[:FOR_DISEASE]->(d:Disease), \n              (dsr)-[:FOR_SYMPTOM]->(s:Symptom)\n        WHERE toLower(d.name) CONTAINS toLower('"

def SYMPTOMS_QUERY_POST : String :=
  "')\n        RETURN d.name as condition, collect(s.name) as symptoms\n        "

/-- The Cypher text `MedicalQueryHelper.get_symptoms_for_condition` builds
(the f-string with `condition_name` spliced in). -/
def get_symptoms_for_condition_query (condition_name : String) : String :=
  SYMPTOMS_QUERY_PRE ++ condition_name ++ SYMPTOMS_QUERY_POST

def TREATMENTS_QUERY_PRE : String :=
  "\n        MATCH (dtr:DiseaseTreatmentRelationship)-[:FOR_DISEASE]->(d:Disease), \n              (dtr)-[:FOR_TREATMENT]->(t:Treatment)\n        WHERE toLower(d.name) CONTAINS toLower('"

def TREATMENTS_QUERY_POST : String :=
  "')\n        RETURN d.name as condition, collect(t.name) as treatments\n        "

/-- The Cypher text `MedicalQueryHelper.get_treatments_for_condition` builds. -/
def get_treatments_for_condition_query (condition_name : String) : String :=
  TREATMENTS_QUERY_PRE ++ condition_name ++ TREATMENTS_QUERY_POST

def CONDITIONS_QUERY_PRE : String :=
  "\n        MATCH (dsr:DiseaseSymptomRelationship)-[:FOR_DISEASE]->(d:Disease), \n              (dsr)-[:FOR_SYMPTOM]->(s:Symptom)\n        WHERE toLower(s.name) IN ["

def CONDITIONS_QUERY_POST : String :=
  "]\n        RETURN d.name as condition, collect(s.name) as matching_symptoms, count(s) as symptom_count\n        ORDER BY symptom_count DESC\n        LIMIT 10\n        "

/-- The Cypher text `MedicalQueryHelper.find_conditions_by_symptoms` builds:
each symptom is lowercased, quoted, and the quoted values are joined with
a comma and a space. -/
def find_conditions_by_symptoms_query (symptoms_list : List String) : String :=
  CONDITIONS_QUERY_PRE ++
    String.intercalate ", " (symptoms_list.map (fun symptom => "'" ++ toLowerStr symptom ++ "'")) ++
    CONDITIONS_QUERY_POST

/-- Semantics of the condition-name filter clause the symptom-lookup queries
use, `toLower(d.name) CONTAINS toLower(x)`: a case-insensitive substring
match of the user-supplied name against the stored disease name. -/
def conditionNameFilter (dbName condition_name : String) : Bool :=
  containsSubstr (toLowerStr dbName) (toLowerStr condition_name)

/-! ## Exceptions, service values, service handles -/

/-- Python exceptions, by class, each carrying its message (`str(e)`).
`connectionError` is Python's builtin `ConnectionError`; the repository code
never raises it, but the constructor is needed to state claims about it. -/
inductive PyError where
  | valueError (msg : String)
  | attributeError (msg : String)
  | importError (msg : String)
  | connectionError (msg : String)
  | queryExecutionError (msg : String)
  | otherError (msg : String)
deriving DecidableEq, Repr

/-- Python `str(e)`: the exception's message text. -/
def PyError.str : PyError → String
  | .valueError msg => msg
  | .attributeError msg => msg
  | .importError msg => msg
  | .connectionError msg => msg
  | .queryExecutionError msg => msg
  | .otherError msg => msg

/-- One record of a Neo4j result: field name to (textual) value. -/
abbrev PyRecord := List (String × String)

/-- What `graph.query(...)` returns: an ordered sequence of records. -/
abbrev ResultSet := List PyRecord

/-- The Neo4j connection handle: its schema description and the behaviour of
`query(text)` on each query string (an oracle for the external database). -/
structure Neo4jGraph where
  schema : String
  queryFn : String → Except PyError ResultSet

/-- The `get_schema` accessor of the driver returns the schema description. -/
def Neo4jGraph.get_schema (g : Neo4jGraph) : String :=
  g.schema

/-- An LLM response object; `content` is its text. -/
structure LLMResponse where
  content : String
deriving DecidableEq, Repr

/-- The Azure OpenAI handle: the behaviour of `llm.invoke(prompt)` on each
prompt (an oracle for the external completion service). -/
structure AzureChatOpenAI where
  invokeFn : String → Except PyError LLMResponse

/-- `llm.invoke(prompt)`. -/
def AzureChatOpenAI.invoke (llm : AzureChatOpenAI) (prompt : String) :
    Except PyError LLMResponse :=
  llm.invokeFn prompt

/-- What a `GraphCypherQAChain.invoke({"query": ...})` call produces: the
output mapping, of which the code reads the `result` entry. -/
structure ChainResult where
  result : String
deriving DecidableEq, Repr

/-- The behaviour of one chain object's `invoke` on each question. -/
abbrev ChainInvoke := String → Except PyError ChainResult

/-! ## `main.py`: the manual single-prompt fallback (`simple_graph_qa`) -/

/-- The f-string prompt `simple_graph_qa` builds (indentation of the Python
triple-quoted literal included). -/
def cypher_prompt_of (schema_info question : String) : String :=
  "\n            Based on this Neo4j schema:\n            " ++ schema_info ++
    "\n            \n            Generate a Cypher query to answer: " ++ question ++
    "\n            \n            Return only the Cypher query, no explanation.\n            "

/-- What `simple_graph_qa` returns: either the raw result records of the
executed query, or a string (the query-execution-error message). -/
inductive QAResult where
  | records (rs : ResultSet)
  | message (s : String)
deriving DecidableEq, Repr

/-- The manual single-prompt fallback defined inside
`MedicalRAGSystem._setup_simple_graph_qa`: fetch the schema, build the
prompt, send it to the LLM, strip the response, execute the remainder as the
Cypher query; an execution failure is caught and converted into a
`"Query execution error: ..."` message. -/
def simple_graph_qa (graph : Neo4jGraph) (llm : AzureChatOpenAI) (question : String) :
    Except PyError QAResult :=
  let schema_info := Neo4jGraph.get_schema graph
  let cypher_prompt := cypher_prompt_of schema_info question
  match AzureChatOpenAI.invoke llm cypher_prompt with
  | .error e => .error e
  | .ok response =>
    let cypher_query := pyStrip response.content
    match graph.queryFn cypher_query with
    | .ok result => .ok (.records result)
    | .error query_error =>
      .ok (.message ("Query execution error: " ++ PyError.str query_error))

/-! ## `main.py`: `MedicalRAGSystem` -/

/-- What `self.graph_qa_chain` holds after `setup_rag_system`: either a chain
object (which has an `invoke` method), or — in the manual tier — the plain
Python function `simple_graph_qa` itself. -/
inductive GraphQAChain where
  | chainObj (invokeFn : ChainInvoke)
  | pyFunction (f : String → Except PyError QAResult)

/-- Attribute access plus call `self.graph_qa_chain.invoke({"query": q})`:
on a chain object this is the chain's `invoke`; on the stored plain function
the attribute access itself raises `AttributeError`. -/
def GraphQAChain.invokeAttr : GraphQAChain → String → Except PyError ChainResult
  | .chainObj invokeFn, question => invokeFn question
  | .pyFunction _, _ =>
    .error (.attributeError "'function' object has no attribute 'invoke'")

/-- The mutable state of `MedicalRAGSystem` that the claims touch
(fields are `None` before the corresponding setup step ran). -/
structure MedicalRAGSystem where
  graph : Option Neo4jGraph
  llm : Option AzureChatOpenAI
  graph_qa_chain : Option GraphQAChain

/-- `MedicalRAGSystem.get_schema`: raises `ValueError` when no graph
connection has been established, otherwise returns the connection's schema. -/
def MedicalRAGSystem.get_schema (sys : MedicalRAGSystem) : Except PyError String :=
  match sys.graph with
  | none =>
    .error (.valueError "Graph connection not established. Call setup_connections() first.")
  | some g => .ok g.schema

/-- Outcomes of the four external steps `setup_rag_system` may perform:
the `langchain_neo4j` import of `GraphCypherQAChain`, its `from_llm`
constructor, the `langchain_community` import, and its `from_llm`
constructor. -/
structure SetupOracles where
  importNeo4jChain : Except PyError Unit
  neo4jFromLlm : Except PyError ChainInvoke
  importCommunityChain : Except PyError Unit
  communityFromLlm : Except PyError ChainInvoke

/-- The outcome of the outer `try` block of `setup_rag_system` (the import
statement followed by the preferred `from_llm` call): the first exception
raised in the block, or the constructed chain. -/
def tryBlockResult (env : SetupOracles) : Except PyError ChainInvoke :=
  match env.importNeo4jChain with
  | .error e => .error e
  | .ok _ => env.neo4jFromLlm

/-- The three initialization tiers of the structured-query step. -/
inductive Strategy where
  | preferredChain
  | communityChain
  | manualSimple
deriving DecidableEq, Repr

/-- Whether an exception is an `ImportError` (what the first `except` clause
of `setup_rag_system` catches). -/
def isImportError : PyError → Bool
  | .importError _ => true
  | _ => false

/-- `MedicalRAGSystem.setup_rag_system` after its connection guard, with the
tiers it attempted recorded in order: try the `langchain_neo4j` chain; on
`ImportError` import the community chain and try it, falling back to
`_setup_simple_graph_qa` if its constructor raises; on any other exception
fall back to `_setup_simple_graph_qa` directly.  A failing community import
propagates out of the method. -/
def setup_rag_system (graph : Neo4jGraph) (llm : AzureChatOpenAI) (env : SetupOracles) :
    Except PyError GraphQAChain × List Strategy :=
  match tryBlockResult env with
  | .ok c => (.ok (.chainObj c), [.preferredChain])
  | .error e =>
    if isImportError e then
      match env.importCommunityChain with
      | .error ie => (.error ie, [.preferredChain, .communityChain])
      | .ok _ =>
        match env.communityFromLlm with
        | .ok c => (.ok (.chainObj c), [.preferredChain, .communityChain])
        | .error _ =>
          (.ok (.pyFunction (fun q => simple_graph_qa graph llm q)),
            [.preferredChain, .communityChain, .manualSimple])
    else
      (.ok (.pyFunction (fun q => simple_graph_qa graph llm q)),
        [.preferredChain, .manualSimple])

/-- `setup_rag_system` including its guard: raises `ValueError` when the
connections are missing, otherwise stores the chosen chain in
`graph_qa_chain`. -/
def MedicalRAGSystem.setup_rag_system_on (sys : MedicalRAGSystem) (env : SetupOracles) :
    Except PyError (MedicalRAGSystem × List Strategy) :=
  match sys.graph, sys.llm with
  | some g, some l =>
    match setup_rag_system g l env with
    | (.ok chain, attempted) => .ok ({ sys with graph_qa_chain := some chain }, attempted)
    | (.error e, _) => .error e
  | _, _ =>
    .error (.valueError "Connections must be established first. Call setup_connections().")

/-! ## `utils.py`: `OptimizedMedicalChain` -/

/-- Outcomes of the two `GraphCypherQAChain.from_llm` calls
`OptimizedMedicalChain._setup_chains` makes (clean, then verbose). -/
structure ChainSetupOracles where
  cleanFromLlm : Except PyError ChainInvoke
  verboseFromLlm : Except PyError ChainInvoke

/-- The chain fields `_setup_chains` leaves behind: the two constructor calls
run in sequence inside one `try`; any exception sets both fields to `None`. -/
def setup_chains (env : ChainSetupOracles) : Option ChainInvoke × Option ChainInvoke :=
  match env.cleanFromLlm with
  | .error _ => (none, none)
  | .ok c1 =>
    match env.verboseFromLlm with
    | .error _ => (none, none)
    | .ok c2 => (some c1, some c2)

/-- The chain-holding state of `OptimizedMedicalChain`. -/
structure OptimizedMedicalChain where
  optimized_chain : Option ChainInvoke
  optimized_chain_verbose : Option ChainInvoke

/-- `OptimizedMedicalChain.__init__`: store what `_setup_chains` produced. -/
def OptimizedMedicalChain.ofSetup (env : ChainSetupOracles) : OptimizedMedicalChain :=
  ⟨(setup_chains env).1, (setup_chains env).2⟩

/-- `OptimizedMedicalChain.is_available`: the clean chain is not `None`. -/
def OptimizedMedicalChain.is_available (c : OptimizedMedicalChain) : Bool :=
  c.optimized_chain.isSome

/-- Python `"-" * n`. -/
def dashLine (n : Nat) : String :=
  ⟨List.replicate n '-'⟩

/-- Python `"=" * n`. -/
def eqLine (n : Nat) : String :=
  ⟨List.replicate n '='⟩

/-- The fixed medical disclaimer line `ask_medical_question_clean` prints. -/
def DISCLAIMER : String :=
  "⚠️  Always consult healthcare professionals for medical advice."

/-- The lines `ask_medical_question_clean` prints after a successful chain
invocation (its clean answer block, ending with the disclaimer banner). -/
def answerBlock (question answer : String) : List String :=
  ["\n" ++ eqLine 60, "🩺 MEDICAL ASSISTANT RESPONSE", eqLine 60,
    "📋 Question: " ++ question, "💡 Answer: " ++ answer, eqLine 60,
    DISCLAIMER, eqLine 60]

/-- The invocation part of `ask_medical_question_clean` once a chain has been
chosen: invoke it; on success print the answer block, reading the answer from
the `result` entry of the chain's output. -/
def askInvokeBranch (chain : ChainInvoke) (question : String) :
    Except PyError ChainResult × List String :=
  match chain question with
  | .error e => (.error e, [])
  | .ok result => (.ok result, answerBlock question result.result)

/-- `OptimizedMedicalChain.ask_medical_question_clean`: raise `ValueError`
when `optimized_chain` is `None`; otherwise invoke the verbose chain when it
exists, else the clean one, and print the answer block. -/
def OptimizedMedicalChain.ask_medical_question_clean (c : OptimizedMedicalChain)
    (question : String) : Except PyError ChainResult × List String :=
  match c.optimized_chain with
  | none => (.error (.valueError "Optimized chains not available. Check setup."), [])
  | some chain =>
    match c.optimized_chain_verbose with
    | some v => askInvokeBranch v question
    | none => askInvokeBranch chain question

/-! ## `main.py`: the interactive loop -/

/-- `MedicalRAGSystem.test_basic_query`: raise `ValueError` when no QA chain
is set up; otherwise print the test banner and call
`self.graph_qa_chain.invoke({"query": question})`, printing the result.
(The `Result:` line prints the chain output, of which the model keeps the
`result` entry.) -/
def MedicalRAGSystem.test_basic_query (sys : MedicalRAGSystem) (question : String) :
    Except PyError ChainResult × List String :=
  match sys.graph_qa_chain with
  | none => (.error (.valueError "RAG system not set up. Call setup_rag_system() first."), [])
  | some chain =>
    let pre := ["Testing with question: " ++ question, dashLine 50]
    match GraphQAChain.invokeAttr chain question with
    | .error e => (.error e, pre)
    | .ok result => (.ok result, pre ++ ["Result: " ++ result.result])

/-- Which branch of the per-question dispatch in `main` ran. -/
inductive DispatchPath where
  | optimizedPath
  | basicPath
deriving DecidableEq, Repr

/-- What one question's processing produced: the branch taken and the lines
printed by that branch (including the caught-exception message, if any). -/
structure QuestionOutcome where
  path : DispatchPath
  output : List String
deriving DecidableEq, Repr

/-- The guarded dispatch of `main`'s loop body: inside a `try`, use the
optimized chain when it is available, else `test_basic_query`; any exception
is caught and printed as an error-processing message. -/
def processQuestion (opt : OptimizedMedicalChain) (sys : MedicalRAGSystem)
    (user_question : String) : QuestionOutcome :=
  if OptimizedMedicalChain.is_available opt then
    match OptimizedMedicalChain.ask_medical_question_clean opt user_question with
    | (.ok _, out) => ⟨.optimizedPath, out⟩
    | (.error e, out) =>
      ⟨.optimizedPath, out ++ ["❌ Error processing question: " ++ PyError.str e]⟩
  else
    match MedicalRAGSystem.test_basic_query sys user_question with
    | (.ok _, out) => ⟨.basicPath, out⟩
    | (.error e, out) =>
      ⟨.basicPath, out ++ ["❌ Error processing question: " ++ PyError.str e]⟩

/-- What one iteration of the read loop did: whether the question was
dispatched to the QA machinery at all, and the lines printed. -/
structure LoopIterOutcome where
  dispatched : Bool
  output : List String
deriving DecidableEq, Repr

/-- One iteration of `main`'s `while True` loop on one raw input line: strip
it; when the remainder is empty print the rejection line and continue without
dispatching; otherwise print the processing banner and dispatch. -/
def loopIterate (opt : OptimizedMedicalChain) (sys : MedicalRAGSystem)
    (rawInput : String) : LoopIterOutcome :=
  let user_question := pyStrip rawInput
  if user_question == "" then
    ⟨false, ["\n" ++ dashLine 30, "❌ Please enter a valid question."]⟩
  else
    let r := processQuestion opt sys user_question
    ⟨true, ["\n" ++ dashLine 30, "\n🤖 Processing: " ++ user_question, dashLine 50]
      ++ r.output⟩

/-! ## Concrete fixtures (sample service behaviours used by concrete runs) -/

/-- A schema description as the driver would report it. -/
def schemaText : String :=
  "Node properties: Disease.name STRING, Symptom.name STRING, Treatment.name STRING"

/-- A database connection on which every query succeeds with one record. -/
def graph0 : Neo4jGraph :=
  ⟨schemaText, fun _ => .ok [[("message", "Connection successful!")]]⟩

/-- A fixed LLM completion (a bare Cypher query). -/
def llm0Response : LLMResponse :=
  ⟨"MATCH (d:Disease) RETURN d.name as disease_name LIMIT 5"⟩

/-- An LLM handle that always returns `llm0Response`. -/
def llm0 : AzureChatOpenAI :=
  ⟨fun _ => .ok llm0Response⟩

/-- A chain whose `invoke` succeeds with a fixed answer. -/
def okChain : ChainInvoke :=
  fun _ => .ok ⟨"Diabetes commonly causes increased thirst and fatigue."⟩

/-- An `OptimizedMedicalChain` whose setup failed (both fields `None`). -/
def optNone : OptimizedMedicalChain := ⟨none, none⟩

/-- A `MedicalRAGSystem` before any setup ran. -/
def sysNone : MedicalRAGSystem := ⟨none, none, none⟩

set_option maxRecDepth 20000

/-! ## C4 -/

/-- C4: every symptom-lookup condition-name filter — in the prompt template's
worked symptom pattern and in `get_symptoms_for_condition` — is the
case-insensitive substring clause `toLower(d.name) CONTAINS toLower(...)`;
no exact-equality filter `d.name =` occurs in the template or in the fixed
text of the helper's query, and the clause's semantics accepts a proper
substring that string equality rejects. -/
theorem symptom_lookup_filter_case_insensitive_substring :
    (containsSubstr ADVANCED_CYPHER_TEMPLATE
        "WHERE toLower(d.name) CONTAINS toLower(\"condition_name\")" = true
      ∧ containsSubstr ADVANCED_CYPHER_TEMPLATE "d.name =" = false)
    ∧ (∀ condition_name : String,
        containsSubstr (get_symptoms_for_condition_query condition_name)
          "WHERE toLower(d.name) CONTAINS toLower('" = true)
    ∧ containsSubstr (get_symptoms_for_condition_query "condition_name") "d.name =" = false
    ∧ (conditionNameFilter "Diabetes Type 2" "diabetes" = true
      ∧ ("Diabetes Type 2" == "diabetes") = false) := by
  refine ⟨⟨?_, ?_⟩, ?_, ?_, ?_, ?_⟩
  · unfold ADVANCED_CYPHER_TEMPLATE
    refine containsSubstr_append_right _ _ _ (containsSubstr_append_right _ _ _
      (containsSubstr_append_right _ _ _ (containsSubstr_append_right _ _ _
        (containsSubstr_append_left _ _ _ ?_))))
    decide
  · decide
  · intro condition_name
    unfold get_symptoms_for_condition_query
    refine containsSubstr_append_right _ _ _ (containsSubstr_append_right _ _ _ ?_)
    decide
  · decide
  · decide
  · decide

/-! ## C8 -/

/-- C8: the reverse diagnostic lookup orders candidate conditions by
matching-symptom count descending and caps the result size at 10, both in
the template's worked diagnostic pattern and in the query
`find_conditions_by_symptoms` builds (for every symptom list). -/
theorem diagnostic_lookup_ranked_desc_with_limit :
    containsSubstr ADVANCED_CYPHER_TEMPLATE
        "RETURN d.name as condition, count(s) as symptom_matches\nORDER BY symptom_matches DESC\nLIMIT 10" = true
    ∧ (∀ symptoms_list : List String,
        containsSubstr (find_conditions_by_symptoms_query symptoms_list)
          "ORDER BY symptom_count DESC\n        LIMIT 10" = true) := by
  constructor
  · unfold ADVANCED_CYPHER_TEMPLATE
    refine containsSubstr_append_right _ _ _ (containsSubstr_append_right _ _ _
      (containsSubstr_append_left _ _ _ ?_))
    decide
  · intro symptoms_list
    unfold find_conditions_by_symptoms_query
    refine containsSubstr_append_left _ _ _ ?_
    decide

/-! ## C5 -/

/-- Whether a `get_schema` outcome is a raised `ConnectionError`. -/
def isConnectionErrorResult : Except PyError String → Bool
  | .error (.connectionError _) => true
  | _ => false

/-- C5 counterexample: on a system with no database connection, `get_schema`
raises `ValueError` (with the setup-order message), not `ConnectionError` as
the claim states. -/
theorem get_schema_no_connection_raises_value_error_cex :
    MedicalRAGSystem.get_schema sysNone
      = .error (.valueError "Graph connection not established. Call setup_connections() first.")
    ∧ isConnectionErrorResult (MedicalRAGSystem.get_schema sysNone) = false :=
  ⟨rfl, rfl⟩

/-- C5 (amended): calling `get_schema` with no established connection fails
with `ValueError` carrying the setup-order message; with a connection it
returns the connection's current schema description. -/
theorem get_schema_contract (sys : MedicalRAGSystem) :
    (sys.graph = none →
      MedicalRAGSystem.get_schema sys
        = .error (.valueError "Graph connection not established. Call setup_connections() first."))
    ∧ (∀ g : Neo4jGraph, sys.graph = some g →
      MedicalRAGSystem.get_schema sys = .ok (Neo4jGraph.get_schema g)) := by
  constructor
  · intro h
    simp [MedicalRAGSystem.get_schema, h]
  · intro g h
    simp [MedicalRAGSystem.get_schema, Neo4jGraph.get_schema, h]

/-! ## C6 -/

/-- C6: an input line that is empty after stripping is rejected by the read
loop before any dispatch: the iteration does not reach the QA machinery, it
prints the rejection line and continues, and its behaviour is independent of
every service object (so no network call can have occurred). -/
theorem empty_input_rejected_before_dispatch (opt : OptimizedMedicalChain)
    (sys : MedicalRAGSystem) (input : String) (h : pyStrip input = "") :
    (loopIterate opt sys input).dispatched = false
    ∧ (loopIterate opt sys input).output
        = ["\n" ++ dashLine 30, "❌ Please enter a valid question."]
    ∧ (∀ (opt2 : OptimizedMedicalChain) (sys2 : MedicalRAGSystem),
        loopIterate opt sys input = loopIterate opt2 sys2 input) := by
  refine ⟨?_, ?_, ?_⟩ <;> simp [loopIterate, h]

/-- C6 witness: the all-blank line `"   "` strips to empty and is not
dispatched. -/
theorem empty_input_rejected_before_dispatch_witness :
    pyStrip "   " = "" ∧ (loopIterate optNone sysNone "   ").dispatched = false :=
  ⟨by decide, (empty_input_rejected_before_dispatch optNone sysNone "   " (by decide)).1⟩

/-! ## C7 -/

/-- C7: in the manual single-prompt implementation, whenever the LLM call
returns a response, the string executed against the database is exactly the
whitespace-stripped raw response text — the whole remainder, with no
validation or rejection of extraneous prose: the outcome is entirely the
outcome of executing `pyStrip response.content`. -/
theorem manual_synthesizer_strips_and_passes_whole_response
    (graph : Neo4jGraph) (llm : AzureChatOpenAI) (question : String)
    (response : LLMResponse)
    (h : llm.invokeFn (cypher_prompt_of (Neo4jGraph.get_schema graph) question)
      = .ok response) :
    simple_graph_qa graph llm question
      = .ok (match graph.queryFn (pyStrip response.content) with
          | .ok result => QAResult.records result
          | .error query_error =>
            QAResult.message ("Query execution error: " ++ PyError.str query_error)) := by
  cases hq : graph.queryFn (pyStrip response.content) <;>
    simp [simple_graph_qa, AzureChatOpenAI.invoke, h, hq]

/-- An LLM response that contains explanatory prose around the query. -/
def proseResponse : LLMResponse :=
  ⟨"Here is the query:\nMATCH (d:Disease) RETURN d.name"⟩

/-- An LLM handle that always answers with `proseResponse`. -/
def llmProse : AzureChatOpenAI :=
  ⟨fun _ => .ok proseResponse⟩

/-- C7 witness: with a prose-laden response, the manual implementation still
hands the entire stripped text to the executor, whose outcome it returns. -/
theorem manual_synthesizer_strips_and_passes_whole_response_witness :
    llmProse.invokeFn (cypher_prompt_of (Neo4jGraph.get_schema graph0) "What is diabetes?")
      = .ok proseResponse
    ∧ simple_graph_qa graph0 llmProse "What is diabetes?"
      = .ok (match graph0.queryFn (pyStrip proseResponse.content) with
          | .ok result => QAResult.records result
          | .error query_error =>
            QAResult.message ("Query execution error: " ++ PyError.str query_error)) :=
  ⟨rfl, manual_synthesizer_strips_and_passes_whole_response graph0 llmProse
    "What is diabetes?" proseResponse rfl⟩

/-! ## C9 -/

/-- C9: when execution of the synthesized query fails in the manual fallback,
the exception is caught and converted into the returned user-facing message
`"Query execution error: <underlying error>"`; the function returns normally
rather than letting the exception propagate. -/
theorem manual_fallback_converts_query_failure_to_message
    (graph : Neo4jGraph) (llm : AzureChatOpenAI) (question : String)
    (response : LLMResponse) (e : PyError)
    (hl : llm.invokeFn (cypher_prompt_of (Neo4jGraph.get_schema graph) question)
      = .ok response)
    (hq : graph.queryFn (pyStrip response.content) = .error e) :
    simple_graph_qa graph llm question
      = .ok (.message ("Query execution error: " ++ PyError.str e)) := by
  simp only [simple_graph_qa, AzureChatOpenAI.invoke, hl, hq]

/-- A database connection on which every query raises. -/
def failingGraph : Neo4jGraph :=
  ⟨schemaText, fun _ => .error (.queryExecutionError "Variable `d` not defined")⟩

/-- C9 witness: on a failing executor the manual fallback returns the
embedded error message. -/
theorem manual_fallback_converts_query_failure_to_message_witness :
    simple_graph_qa failingGraph llm0 "What is diabetes?"
      = .ok (.message ("Query execution error: " ++
          PyError.str (.queryExecutionError "Variable `d` not defined"))) :=
  manual_fallback_converts_query_failure_to_message failingGraph llm0 "What is diabetes?"
    llm0Response (.queryExecutionError "Variable `d` not defined") rfl rfl

/-! ## C1 -/

/-- A chain whose `invoke` raises `QueryExecutionError` (the synthesized
query failed to execute mid-request). -/
def qeChain : ChainInvoke :=
  fun _ => .error (.queryExecutionError "Invalid input near MATCH")

/-- An `OptimizedMedicalChain` that initialized successfully but whose
invocation fails at query-execution time. -/
def optQE : OptimizedMedicalChain := ⟨some qeChain, some qeChain⟩

/-- A fully set-up system whose basic QA chain would answer fine. -/
def basicOkSystem : MedicalRAGSystem :=
  ⟨some graph0, some llm0, some (.chainObj okChain)⟩

/-- C1 counterexample: the optimized chain initialized (so `is_available` is
true), execution of the synthesized query raises `QueryExecutionError`
mid-request, a working fallback system stands ready — yet the question stays
on the optimized path and only the caught-error line is printed: no
transition to the degraded single-step path happens for that question. -/
theorem query_error_does_not_switch_to_fallback_cex :
    (processQuestion optQE basicOkSystem "What are the symptoms of diabetes?").path
      = DispatchPath.optimizedPath
    ∧ (processQuestion optQE basicOkSystem "What are the symptoms of diabetes?").path
      ≠ DispatchPath.basicPath
    ∧ (processQuestion optQE basicOkSystem "What are the symptoms of diabetes?").output
      = ["❌ Error processing question: Invalid input near MATCH"] := by
  refine ⟨rfl, by decide, rfl⟩

/-- C1 (amended): the degraded path is selected solely by the startup
condition `is_available`; when the optimized chain is available the outcome
never consults the fallback system object, and a mid-request
`QueryExecutionError` from the chain is caught and printed as an
error-processing message for that question (the loop then continues). -/
theorem fallback_selection_is_startup_only (opt : OptimizedMedicalChain)
    (sys : MedicalRAGSystem) (q : String) :
    ((processQuestion opt sys q).path
      = if OptimizedMedicalChain.is_available opt then DispatchPath.optimizedPath
        else DispatchPath.basicPath)
    ∧ (OptimizedMedicalChain.is_available opt = true →
        ∀ sys2 : MedicalRAGSystem, processQuestion opt sys q = processQuestion opt sys2 q)
    ∧ (∀ c v e, opt.optimized_chain = some c → opt.optimized_chain_verbose = some v →
        v q = .error e →
        (processQuestion opt sys q).output
          = ["❌ Error processing question: " ++ PyError.str e]) := by
  refine ⟨?_, ?_, ?_⟩
  · by_cases h : OptimizedMedicalChain.is_available opt = true
    · rw [if_pos h]
      unfold processQuestion
      rw [if_pos h]
      rcases OptimizedMedicalChain.ask_medical_question_clean opt q with ⟨res, out⟩
      cases res <;> rfl
    · rw [if_neg h]
      unfold processQuestion
      rw [if_neg h]
      rcases MedicalRAGSystem.test_basic_query sys q with ⟨res, out⟩
      cases res <;> rfl
  · intro h sys2
    unfold processQuestion
    rw [if_pos h, if_pos h]
  · intro c v e hc hv he
    have h : OptimizedMedicalChain.is_available opt = true := by
      simp [OptimizedMedicalChain.is_available, hc]
    unfold processQuestion
    rw [if_pos h]
    simp [OptimizedMedicalChain.ask_medical_question_clean, hc, hv, askInvokeBranch, he]

/-! ## C2 -/

/-- Setup outcomes in which the preferred chain's constructor raises an
exception that is not an `ImportError`, while the community tier would have
succeeded had it been tried. -/
def envPreferredCrash : SetupOracles :=
  ⟨.ok (), .error (.otherError "Could not construct GraphCypherQAChain"), .ok (), .ok okChain⟩

/-- C2 counterexample: the preferred implementation fails (with a
non-`ImportError` exception), the community constructor would succeed, yet
initialization goes straight from the preferred tier to the manual one — the
alternate implementation is never tried. -/
theorem preferred_failure_skips_community_cex :
    tryBlockResult envPreferredCrash
      = .error (.otherError "Could not construct GraphCypherQAChain")
    ∧ (setup_rag_system graph0 llm0 envPreferredCrash).2
      = [Strategy.preferredChain, Strategy.manualSimple]
    ∧ Strategy.communityChain ∉ (setup_rag_system graph0 llm0 envPreferredCrash).2
    ∧ envPreferredCrash.communityFromLlm = .ok okChain := by
  refine ⟨rfl, rfl, by decide, rfl⟩

/-- C2 (amended): initialization attempts the tiers in fixed priority order,
adopting the first that succeeds — but the alternate (community) chain is
tried only when the preferred tier fails with an `ImportError`; any other
failure of the preferred tier falls back directly to the manual
single-prompt implementation. -/
theorem three_tier_initialization_order (graph : Neo4jGraph) (llm : AzureChatOpenAI)
    (env : SetupOracles) :
    (∀ c, tryBlockResult env = .ok c →
      setup_rag_system graph llm env = (.ok (.chainObj c), [Strategy.preferredChain]))
    ∧ (∀ m, tryBlockResult env = .error (.importError m) →
        env.importCommunityChain = .ok () →
        ((∀ c, env.communityFromLlm = .ok c →
            setup_rag_system graph llm env
              = (.ok (.chainObj c), [Strategy.preferredChain, Strategy.communityChain]))
          ∧ (∀ e2, env.communityFromLlm = .error e2 →
            setup_rag_system graph llm env
              = (.ok (.pyFunction (fun q => simple_graph_qa graph llm q)),
                  [Strategy.preferredChain, Strategy.communityChain, Strategy.manualSimple]))))
    ∧ (∀ e, tryBlockResult env = .error e → isImportError e = false →
        setup_rag_system graph llm env
          = (.ok (.pyFunction (fun q => simple_graph_qa graph llm q)),
              [Strategy.preferredChain, Strategy.manualSimple])) := by
  refine ⟨?_, ?_, ?_⟩
  · intro c h
    simp [setup_rag_system, h]
  · intro m h hi
    constructor
    · intro c hc
      simp [setup_rag_system, h, isImportError, hi, hc]
    · intro e2 he
      simp [setup_rag_system, h, isImportError, hi, he]
  · intro e h hne
    simp [setup_rag_system, h, hne]

/-! ## C3 -/

/-- The stored manual tier: `graph_qa_chain` holds the plain Python function
`simple_graph_qa` (closed over the connections), not a chain object. -/
def simpleFallbackChain : GraphQAChain :=
  .pyFunction (fun q => simple_graph_qa graph0 llm0 q)

/-- A system in which the structured-query chain initialization fell through
to the manual tier. -/
def sysSimpleFallback : MedicalRAGSystem :=
  ⟨some graph0, some llm0, some simpleFallbackChain⟩

/-- C3: at the failing input — optimized chain unavailable, `graph_qa_chain`
holding the manual single-step fallback function, a well-formed question —
the dispatch takes the basic path, but `test_basic_query`'s
`.invoke` attribute access on the stored plain function raises
`AttributeError`: the caught error line is printed, no answer is produced
and the disclaimer is absent from that question's output, contradicting the
fallback-correctness property. -/
theorem single_step_fallback_crashes_without_answer_or_disclaimer :
    (processQuestion optNone sysSimpleFallback "What are the symptoms of diabetes?").path
      = DispatchPath.basicPath
    ∧ (processQuestion optNone sysSimpleFallback "What are the symptoms of diabetes?").output
      = ["Testing with question: What are the symptoms of diabetes?", dashLine 50,
          "❌ Error processing question: 'function' object has no attribute 'invoke'"]
    ∧ DISCLAIMER ∉
        (processQuestion optNone sysSimpleFallback "What are the symptoms of diabetes?").output := by
  refine ⟨rfl, rfl, by decide⟩

/-! ## C10 -/

/-- C10: after `OptimizedMedicalChain` construction the two chain fields are
both set or both `None`, whatever the two constructor calls did; and whenever
`is_available` holds, `ask_medical_question_clean` has a chain to invoke — it
runs the invocation branch (on the verbose chain) instead of raising its
unavailability `ValueError`. -/
theorem optimized_chain_fields_all_or_nothing (env : ChainSetupOracles) (question : String) :
    ((∃ c1 c2, OptimizedMedicalChain.ofSetup env = ⟨some c1, some c2⟩)
      ∨ OptimizedMedicalChain.ofSetup env = ⟨none, none⟩)
    ∧ (OptimizedMedicalChain.is_available (OptimizedMedicalChain.ofSetup env) = true →
        ∃ c1 c2, OptimizedMedicalChain.ofSetup env = ⟨some c1, some c2⟩
          ∧ OptimizedMedicalChain.ask_medical_question_clean
              (OptimizedMedicalChain.ofSetup env) question
            = askInvokeBranch c2 question) := by
  cases hc : env.cleanFromLlm with
  | error e =>
    constructor
    · right
      simp [OptimizedMedicalChain.ofSetup, setup_chains, hc]
    · intro h
      exfalso
      simp [OptimizedMedicalChain.is_available, OptimizedMedicalChain.ofSetup,
        setup_chains, hc] at h
  | ok c1 =>
    cases hv : env.verboseFromLlm with
    | error e =>
      constructor
      · right
        simp [OptimizedMedicalChain.ofSetup, setup_chains, hc, hv]
      · intro h
        exfalso
        simp [OptimizedMedicalChain.is_available, OptimizedMedicalChain.ofSetup,
          setup_chains, hc, hv] at h
    | ok c2 =>
      have hof : OptimizedMedicalChain.ofSetup env = ⟨some c1, some c2⟩ := by
        simp [OptimizedMedicalChain.ofSetup, setup_chains, hc, hv]
      constructor
      · exact Or.inl ⟨c1, c2, hof⟩
      · intro _
        refine ⟨c1, c2, hof, ?_⟩
        rw [hof]
        rfl
